import Mathlib

/-!
Verification of the flight-mode arbitration core and the traffic-avoidance
maneuver generator of the ArduRUAS copter firmware
(src/ArduCopter/flight_mode.cpp), against its natural-language specification.

The mode-transition machinery is embedded as explicit state passing over a
vehicle state plus an environment record holding the values read from
external collaborators (per-mode init hooks, arming subsystem, mission
subsystem, pilot throttle input).  Side effects on collaborators are
recorded as an event trace.  Build configuration: multirotor frame
(FRAME_CONFIG is not HELI_FRAME), AUTOTUNE_ENABLED, POSHOLD_ENABLED,
AC_FENCE and MOUNT all ENABLED, matching the specification, which lists
Autotune and PosHold among the modes and describes the fence-recovery and
camera-mount hooks.

The avoidance generator (Copter::avoidance_maneuver) operates on float
scalars; it is embedded over the real numbers, with atanf and sqrt mapped
to Real.arctan and Real.sqrt.
-/

namespace ArduRUAS

/-! ## Flight mode identifiers

Modelled from the spec: the numeric values of the mode identifiers come
from defines.h, which is not among the repository files; the spec describes
Mode as a closed set of enumerated identifiers, fixed at build time.  The
values below use the standard ArduCopter numbering where it is known and
fresh distinct values for the two RUAS variants; no claim depends on the
particular numerals, only on their distinctness.
-/

/-- Modelled from the spec: mode identifier STABILIZE. -/
def STABILIZE : Nat := 0

/-- Modelled from the spec: mode identifier ACRO. -/
def ACRO : Nat := 1

/-- Modelled from the spec: mode identifier ALT_HOLD. -/
def ALT_HOLD : Nat := 2

/-- Modelled from the spec: mode identifier AUTO. -/
def AUTO : Nat := 3

/-- Modelled from the spec: mode identifier GUIDED. -/
def GUIDED : Nat := 4

/-- Modelled from the spec: mode identifier LOITER. -/
def LOITER : Nat := 5

/-- Modelled from the spec: mode identifier RTL. -/
def RTL : Nat := 6

/-- Modelled from the spec: mode identifier CIRCLE. -/
def CIRCLE : Nat := 7

/-- Modelled from the spec: mode identifier LAND. -/
def LAND : Nat := 9

/-- Modelled from the spec: mode identifier DRIFT. -/
def DRIFT : Nat := 11

/-- Modelled from the spec: mode identifier SPORT. -/
def SPORT : Nat := 13

/-- Modelled from the spec: mode identifier FLIP. -/
def FLIP : Nat := 14

/-- Modelled from the spec: mode identifier AUTOTUNE. -/
def AUTOTUNE : Nat := 15

/-- Modelled from the spec: mode identifier POSHOLD. -/
def POSHOLD : Nat := 16

/-- Modelled from the spec: mode identifier BRAKE. -/
def BRAKE : Nat := 17

/-- Modelled from the spec: mode identifier THROW. -/
def THROW : Nat := 18

/-- Modelled from the spec: mode identifier STAB_RUAS, the alternate-input
variant of STABILIZE. -/
def STAB_RUAS : Nat := 19

/-- Modelled from the spec: mode identifier AUTO_RUAS, the RUAS variant of
AUTO. -/
def AUTO_RUAS : Nat := 20

/-! ## Mode predicates (flight_mode.cpp lines 300-341) -/

/-- Copter::mode_has_manual_throttle, flight_mode.cpp lines 321-332: true
for ACRO, STABILIZE and STAB_RUAS, false otherwise. -/
def mode_has_manual_throttle (mode : Nat) : Bool :=
  mode == ACRO || mode == STABILIZE || mode == STAB_RUAS

/-- Copter::mode_requires_GPS, flight_mode.cpp lines 300-318. -/
def mode_requires_GPS (mode : Nat) : Bool :=
  mode == AUTO || mode == AUTO_RUAS || mode == GUIDED || mode == LOITER ||
  mode == RTL || mode == CIRCLE || mode == DRIFT || mode == POSHOLD ||
  mode == BRAKE || mode == THROW

/-- Copter::mode_allows_arming, flight_mode.cpp lines 336-341. -/
def mode_allows_arming (mode : Nat) (arming_from_gcs : Bool) : Bool :=
  mode_has_manual_throttle mode || mode == LOITER || mode == ALT_HOLD ||
  mode == POSHOLD || mode == DRIFT || mode == SPORT || mode == THROW ||
  (arming_from_gcs && mode == GUIDED)

/-- The mode values handled by a case of the switch in Copter::set_mode,
flight_mode.cpp lines 25-117; every other value falls to the default case. -/
def recognized (mode : Nat) : Bool :=
  mode == ACRO || mode == STABILIZE || mode == STAB_RUAS ||
  mode == ALT_HOLD || mode == AUTO || mode == AUTO_RUAS ||
  mode == CIRCLE || mode == LOITER || mode == GUIDED ||
  mode == LAND || mode == RTL || mode == DRIFT || mode == SPORT ||
  mode == FLIP || mode == AUTOTUNE || mode == POSHOLD ||
  mode == BRAKE || mode == THROW

/-! ## Transition controller state, environment and event trace -/

/-- The vehicle state owned by this core: control_mode is the single source
of truth for the active behavior. -/
structure CopterState where
  control_mode : Nat
  deriving DecidableEq, Repr

/-- Values the core reads from external collaborators during a transition:
the per-mode init hooks (initOk mode ignoreChecks), the arming subsystem
(armed), the landing detector (landComplete), the mission subsystem
(missionRunning), and the pilot throttle path: controlIn is
channel_throttle control_in and pilotDesiredThrottle the external
get_pilot_desired_throttle mapping. -/
structure Env where
  initOk : Nat → Bool → Bool
  armed : Bool
  landComplete : Bool
  missionRunning : Bool
  pilotDesiredThrottle : Int → ℚ
  controlIn : Int

/-- One observable side effect on a collaborator, in the order the code
performs them. -/
inductive Event where
  | autotuneStop
  | missionStop
  | mountReset
  | throwExit
  | setAccelThrottleI (throttle : ℚ)
  | takeoffStop
  | initHook (mode : Nat) (ignoreChecks : Bool) (ok : Bool)
  | commit (mode : Nat)
  | logMode (mode : Nat)
  | fenceRecovery
  | logError (mode : Nat)
  | notifyMode (mode : Nat)
  deriving DecidableEq, Repr

/-- Events produced by the exit-cleanup coordinator (Copter::exit_mode). -/
def isExitEv : Event → Bool
  | .autotuneStop => true
  | .missionStop => true
  | .mountReset => true
  | .throwExit => true
  | .setAccelThrottleI _ => true
  | .takeoffStop => true
  | _ => false

/-- The throttle-integrator pre-load event. -/
def isPreloadEv : Event → Bool
  | .setAccelThrottleI _ => true
  | _ => false

/-- The mode-change error record. -/
def isErrorEv : Event → Bool
  | .logError _ => true
  | _ => false

/-- Copter::exit_mode, flight_mode.cpp lines 245-297 (the HELI_FRAME block
does not apply to this build): autotune abort, mission stop and mount reset,
throw exit, throttle-integrator pre-load, unconditional takeoff stop, as the
list of side-effect events in program order. -/
def exit_mode (env : Env) (old_control_mode new_control_mode : Nat) :
    List Event :=
  (if old_control_mode == AUTOTUNE then [Event.autotuneStop] else []) ++
  (if old_control_mode == AUTO || old_control_mode == AUTO_RUAS then
    (if env.missionRunning then [Event.missionStop] else []) ++
      [Event.mountReset]
   else []) ++
  (if old_control_mode == THROW then [Event.throwExit] else []) ++
  (if mode_has_manual_throttle old_control_mode &&
      !mode_has_manual_throttle new_control_mode &&
      env.armed && !env.landComplete then
    [Event.setAccelThrottleI (env.pilotDesiredThrottle env.controlIn)]
   else []) ++
  [Event.takeoffStop]

/-- Copter::set_mode, flight_mode.cpp lines 14-144.  Returns the success
flag, the resulting state, and the trace of side effects; each event is
paired with the value of control_mode observable at the instant it fires.
The same-mode early return (lines 21-23) fires no event; the switch (lines
25-117) invokes the init hook of a recognized target and yields failure for
the default case; on success the code runs exit_mode with control_mode
still holding the old mode, then commits, logs the mode change, signals
fence manual recovery and updates the notify device; on failure it logs one
error record. -/
def set_mode (env : Env) (st : CopterState) (mode : Nat) :
    Bool × CopterState × List (Event × Nat) :=
  if mode == st.control_mode then
    (true, st, [])
  else if recognized mode then
    if env.initOk mode (!env.armed) then
      (true, { control_mode := mode },
        ((Event.initHook mode (!env.armed) true, st.control_mode) ::
          (exit_mode env st.control_mode mode).map
            (fun e => (e, st.control_mode))) ++
        ((Event.commit mode, mode) ::
          [(Event.logMode mode, mode), (Event.fenceRecovery, mode),
           (Event.notifyMode mode, mode)]))
    else
      (false, st,
        [(Event.initHook mode (!env.armed) false, st.control_mode),
         (Event.logError mode, st.control_mode)])
  else
    (false, st, [(Event.logError mode, st.control_mode)])

/-- A concrete environment whose init hooks all succeed, armed and not
landed. -/
def env0 : Env :=
  { initOk := fun _ _ => true, armed := true, landComplete := false,
    missionRunning := false, pilotDesiredThrottle := fun _ => 0,
    controlIn := 0 }

/-- A concrete environment whose init hooks all fail. -/
def envF : Env :=
  { env0 with initOk := fun _ _ => false }

/-- A concrete state currently in STABILIZE. -/
def st0 : CopterState := { control_mode := STABILIZE }

/-! ## Avoidance maneuver generator (flight_mode.cpp lines 363-414)

Copter::avoidance_maneuver reads the traffic-track member variables
(_trafic_angle, _trafic_distance, _rel_v, _rel_d), and writes the member
variables do_track_maneuver, do_avoid_maneuver, avoidance_roll_angle_cd,
avoidance_pitch_angle_cd; the distance clamp on line 385 writes back into
_trafic_distance.  All of these are carried in AvState.  The local variable
avoidance_accel_pitch is read on line 392 without ever being assigned (the
assignment on line 390 is commented out), so its indeterminate value is
passed in as the explicit parameter accel_pitch_junk.  The logging call on
line 412 is an external side effect carrying fields of the resulting state
and is not modelled. -/

/-- The member variables read and written by Copter::avoidance_maneuver. -/
structure AvState where
  trafic_angle : ℝ
  trafic_distance : ℝ
  rel_v_x : ℝ
  rel_d_x : ℝ
  rel_d_y : ℝ
  avoidance_roll_angle_cd : ℝ
  avoidance_pitch_angle_cd : ℝ
  do_track_maneuver : Bool
  do_avoid_maneuver : Bool

/-- Local constant safety_bubble, flight_mode.cpp line 365. -/
def safety_bubble : ℝ := 500

/-- Local constant manouver_bubble, flight_mode.cpp line 366 (declared in
the source but unused by the computation). -/
def manouver_bubble : ℝ := 650

/-- Local constant avoidance_gain, flight_mode.cpp line 367. -/
def avoidance_gain : ℝ := 500

/-- The response scalar, flight_mode.cpp line 387:
10*(avoidance_gain)/(_trafic_distance*sqrt(safety_bubble)-1), evaluated on
the already clamped distance. -/
noncomputable def response (d : ℝ) : ℝ :=
  10 * avoidance_gain / (d * Real.sqrt safety_bubble - 1)

/-- The angle clamp, flight_mode.cpp lines 395 and 398:
if (abs(a) > 5) a = 5. -/
noncomputable def clamp5 (a : ℝ) : ℝ :=
  if |a| > 5 then 5 else a

/-- The side-dependent sign flip, flight_mode.cpp lines 402-403:
if (d < 0) a = -a. -/
noncomputable def flipIfNeg (d a : ℝ) : ℝ :=
  if d < 0 then -a else a

/-- Copter::avoidance_maneuver, flight_mode.cpp lines 363-414, as a state
transformer.  accel_pitch_junk stands for the indeterminate value of the
never-assigned local avoidance_accel_pitch (line 370, read on line 392). -/
noncomputable def avoidance_maneuver (s : AvState) (accel_pitch_junk : ℝ) :
    AvState :=
  let do_track :=
    if |s.trafic_angle| < 70 ∧ 50 < s.trafic_distance ∧
        s.trafic_distance < 1000 then true else false
  if |s.trafic_angle| < 70 ∧ 50 < s.trafic_distance ∧
      s.trafic_distance < 700 then
    let d :=
      if s.trafic_distance < safety_bubble then safety_bubble
      else s.trafic_distance
    let avoidance_accel_roll := s.rel_v_x * response d
    let roll :=
      flipIfNeg s.rel_d_y
        (clamp5 (Real.arctan (avoidance_accel_roll / 9.81))) * (-10000)
    let pitch :=
      flipIfNeg s.rel_d_x
        (clamp5 (Real.arctan (accel_pitch_junk / 9.81))) * (-10000)
    { s with
      do_track_maneuver := do_track,
      do_avoid_maneuver := true,
      trafic_distance := d,
      avoidance_roll_angle_cd := roll,
      avoidance_pitch_angle_cd := pitch }
  else
    { s with
      do_track_maneuver := do_track,
      do_avoid_maneuver := false }

/-- A traffic track at the given bearing and distance, with all other
fields zero and both flags initially false. -/
def mkTrack (angle dist : ℝ) : AvState :=
  { trafic_angle := angle, trafic_distance := dist, rel_v_x := 0,
    rel_d_x := 0, rel_d_y := 0, avoidance_roll_angle_cd := 0,
    avoidance_pitch_angle_cd := 0, do_track_maneuver := false,
    do_avoid_maneuver := false }

/-- A concrete active input: bearing 0, distance 600, lateral relative
velocity chosen so that the roll acceleration command is exactly 9.81 and
the raw bank angle therefore arctan 1 = pi/4 (45 degrees). -/
noncomputable def s1av : AvState :=
  { trafic_angle := 0, trafic_distance := 600,
    rel_v_x := 9.81 * (600 * Real.sqrt 500 - 1) / 5000,
    rel_d_x := 1, rel_d_y := 1, avoidance_roll_angle_cd := 0,
    avoidance_pitch_angle_cd := 0, do_track_maneuver := false,
    do_avoid_maneuver := false }

/-- A concrete inactive input (distance 2000, outside both zones) arriving
with nonzero corrections left over from a previous invocation. -/
def s2av : AvState :=
  { trafic_angle := 0, trafic_distance := 2000, rel_v_x := 0,
    rel_d_x := 0, rel_d_y := 0, avoidance_roll_angle_cd := 42,
    avoidance_pitch_angle_cd := 7, do_track_maneuver := false,
    do_avoid_maneuver := true }

/-! ## Theorems -/

/-- Helper: a Bool written by the two branches of a conditional is true
exactly when the condition holds. -/
theorem ite_true_false_iff (p : Prop) [Decidable p] :
    (if p then true else false) = true ↔ p := by
  split_ifs with h <;> simp [h]

/-- Claim C5: a same-mode request returns success immediately, fires no
init hook, no exit cleanup and no logging, fence or notification side
effect, and leaves the state unchanged, for every mode and every
environment. -/
theorem set_mode_same_mode_noop :
    ∀ (env : Env) (st : CopterState),
      set_mode env st st.control_mode = (true, st, []) := by
  intro env st
  simp [set_mode]

/-- Claim C6: mode_allows_arming with arming_from_gcs false is true exactly
on ACRO, STABILIZE, STAB_RUAS, LOITER, ALT_HOLD, POSHOLD, DRIFT, SPORT and
THROW, for every mode value; and for GUIDED it is true from a ground
station and false otherwise. -/
theorem mode_allows_arming_characterized :
    (∀ m : Nat, mode_allows_arming m false =
      (m == ACRO || m == STABILIZE || m == STAB_RUAS || m == LOITER ||
       m == ALT_HOLD || m == POSHOLD || m == DRIFT || m == SPORT ||
       m == THROW)) ∧
    mode_allows_arming GUIDED true = true ∧
    mode_allows_arming GUIDED false = false := by
  refine ⟨fun m => ?_, by decide, by decide⟩
  simp [mode_allows_arming, mode_has_manual_throttle]

/-- Claim C8: the throttle-integrator pre-load during exit cleanup fires
exactly once when the old mode has manual throttle, the new one does not,
the vehicle is armed and not landed, and never otherwise; in particular a
STABILIZE to ALT_HOLD transition while armed and not landed fires it
exactly once, carrying the translated pilot throttle input, and a
STABILIZE to ACRO transition never fires it. -/
theorem exit_mode_throttle_preload :
    (∀ (env : Env) (oldm newm : Nat),
      List.countP isPreloadEv (exit_mode env oldm newm) =
        if mode_has_manual_throttle oldm &&
            !mode_has_manual_throttle newm &&
            env.armed && !env.landComplete then 1 else 0) ∧
    (∀ env : Env, env.armed = true → env.landComplete = false →
      List.countP isPreloadEv (exit_mode env STABILIZE ALT_HOLD) = 1 ∧
      Event.setAccelThrottleI (env.pilotDesiredThrottle env.controlIn) ∈
        exit_mode env STABILIZE ALT_HOLD) ∧
    (∀ env : Env,
      List.countP isPreloadEv (exit_mode env STABILIZE ACRO) = 0) := by
  refine ⟨fun env oldm newm => ?_, fun env ha hl => ?_, fun env => ?_⟩
  · unfold exit_mode
    split_ifs <;>
      simp_all [List.countP_append, List.countP_cons, isPreloadEv]
  · constructor
    · simp [exit_mode, mode_has_manual_throttle, STABILIZE, ALT_HOLD, ACRO,
        STAB_RUAS, AUTOTUNE, AUTO, AUTO_RUAS, THROW, ha, hl,
        List.countP_append, List.countP_cons, isPreloadEv]
    · simp [exit_mode, mode_has_manual_throttle, STABILIZE, ALT_HOLD, ACRO,
        STAB_RUAS, AUTOTUNE, AUTO, AUTO_RUAS, THROW, ha, hl]
  · simp [exit_mode, mode_has_manual_throttle, STABILIZE, ALT_HOLD, ACRO,
      STAB_RUAS, AUTOTUNE, AUTO, AUTO_RUAS, THROW,
      List.countP_append, List.countP_cons, isPreloadEv]

/-- Claim C7: for every input, the track flag is set exactly on the wide
zone (bearing magnitude below 70, distance strictly between 50 and 1000)
and the avoid flag exactly on the narrow zone (distance below 700); at
bearing 0 distance 600 avoidance is active, at distance 750 only tracking
is active, and at bearing 80 both flags are false for every distance. -/
theorem avoidance_zone_flags :
    (∀ (s : AvState) (j : ℝ),
      ((avoidance_maneuver s j).do_track_maneuver = true ↔
        (|s.trafic_angle| < 70 ∧ 50 < s.trafic_distance ∧
          s.trafic_distance < 1000)) ∧
      ((avoidance_maneuver s j).do_avoid_maneuver = true ↔
        (|s.trafic_angle| < 70 ∧ 50 < s.trafic_distance ∧
          s.trafic_distance < 700))) ∧
    (avoidance_maneuver (mkTrack 0 600) 0).do_avoid_maneuver = true ∧
    ((avoidance_maneuver (mkTrack 0 750) 0).do_avoid_maneuver = false ∧
      (avoidance_maneuver (mkTrack 0 750) 0).do_track_maneuver = true) ∧
    (∀ (dist j : ℝ),
      (avoidance_maneuver (mkTrack 80 dist) j).do_track_maneuver = false ∧
      (avoidance_maneuver (mkTrack 80 dist) j).do_avoid_maneuver = false) := by
  have key : ∀ (s : AvState) (j : ℝ),
      ((avoidance_maneuver s j).do_track_maneuver = true ↔
        (|s.trafic_angle| < 70 ∧ 50 < s.trafic_distance ∧
          s.trafic_distance < 1000)) ∧
      ((avoidance_maneuver s j).do_avoid_maneuver = true ↔
        (|s.trafic_angle| < 70 ∧ 50 < s.trafic_distance ∧
          s.trafic_distance < 700)) := by
    intro s j
    by_cases hn : |s.trafic_angle| < 70 ∧ 50 < s.trafic_distance ∧
        s.trafic_distance < 700
    · simp [avoidance_maneuver, hn, ite_true_false_iff]
    · simp [avoidance_maneuver, hn, ite_true_false_iff]
  refine ⟨key, ?_, ⟨?_, ?_⟩, fun dist j => ⟨?_, ?_⟩⟩
  · exact ((key (mkTrack 0 600) 0).2).mpr (by norm_num [mkTrack])
  · rw [← Bool.not_eq_true]
    intro h
    have := ((key (mkTrack 0 750) 0).2).mp h
    norm_num [mkTrack] at this
  · exact ((key (mkTrack 0 750) 0).1).mpr (by norm_num [mkTrack])
  · rw [← Bool.not_eq_true]
    intro h
    have := ((key (mkTrack 80 dist) j).1).mp h
    norm_num [mkTrack] at this
  · rw [← Bool.not_eq_true]
    intro h
    have := ((key (mkTrack 80 dist) j).2).mp h
    norm_num [mkTrack] at this

/-- Claim C2, counterexample: an input outside the narrow zone (distance
2000) arriving with corrections 42 and 7 left over from a prior invocation
clears the avoid flag but emits those stale corrections unchanged, not
zero. -/
theorem avoidance_inactive_emits_stale :
    (avoidance_maneuver s2av 0).do_avoid_maneuver = false ∧
    (avoidance_maneuver s2av 0).avoidance_roll_angle_cd = 42 ∧
    (avoidance_maneuver s2av 0).avoidance_pitch_angle_cd = 7 ∧
    (42 : ℝ) ≠ 0 ∧ (7 : ℝ) ≠ 0 := by
  norm_num [avoidance_maneuver, s2av]

/-- Claim C2, amended: outside the narrow zone the avoid flag is cleared
but the roll and pitch corrections are left at whatever the previous
invocation stored (the correction outputs do retain memory of prior
state); the traffic inputs are untouched and the track flag is still
recomputed from scratch from the current inputs. -/
theorem avoidance_inactive_retains_corrections :
    ∀ (s : AvState) (j : ℝ),
      ¬(|s.trafic_angle| < 70 ∧ 50 < s.trafic_distance ∧
          s.trafic_distance < 700) →
      (avoidance_maneuver s j).do_avoid_maneuver = false ∧
      (avoidance_maneuver s j).avoidance_roll_angle_cd =
        s.avoidance_roll_angle_cd ∧
      (avoidance_maneuver s j).avoidance_pitch_angle_cd =
        s.avoidance_pitch_angle_cd ∧
      (avoidance_maneuver s j).trafic_angle = s.trafic_angle ∧
      (avoidance_maneuver s j).trafic_distance = s.trafic_distance ∧
      (avoidance_maneuver s j).rel_v_x = s.rel_v_x ∧
      (avoidance_maneuver s j).rel_d_x = s.rel_d_x ∧
      (avoidance_maneuver s j).rel_d_y = s.rel_d_y ∧
      ((avoidance_maneuver s j).do_track_maneuver = true ↔
        (|s.trafic_angle| < 70 ∧ 50 < s.trafic_distance ∧
          s.trafic_distance < 1000)) := by
  intro s j hn
  simp [avoidance_maneuver, hn, ite_true_false_iff]

/-- Claim C2, witness for the amended theorem, at the concrete stale-state
input s2av. -/
theorem avoidance_inactive_retains_corrections_witness :
    (avoidance_maneuver s2av 0).do_avoid_maneuver = false ∧
    (avoidance_maneuver s2av 0).avoidance_roll_angle_cd =
      s2av.avoidance_roll_angle_cd ∧
    (avoidance_maneuver s2av 0).avoidance_pitch_angle_cd =
      s2av.avoidance_pitch_angle_cd ∧
    (avoidance_maneuver s2av 0).trafic_angle = s2av.trafic_angle ∧
    (avoidance_maneuver s2av 0).trafic_distance = s2av.trafic_distance ∧
    (avoidance_maneuver s2av 0).rel_v_x = s2av.rel_v_x ∧
    (avoidance_maneuver s2av 0).rel_d_x = s2av.rel_d_x ∧
    (avoidance_maneuver s2av 0).rel_d_y = s2av.rel_d_y ∧
    ((avoidance_maneuver s2av 0).do_track_maneuver = true ↔
      (|s2av.trafic_angle| < 70 ∧ 50 < s2av.trafic_distance ∧
        s2av.trafic_distance < 1000)) :=
  avoidance_inactive_retains_corrections s2av 0 (by norm_num [s2av])

/-- Claim C3: on every successful transition to a different mode, the trace
is the init hook of the target, then every exit-cleanup step of the old
mode observing control_mode still equal to the old mode, then the commit,
then the mode-change log, fence recovery and notification observing the
new mode; the resulting control_mode is the target and no event ever
observes a value other than the old or the new mode. -/
theorem set_mode_exit_before_commit (env : Env) (st : CopterState)
    (mode : Nat) (hne : mode ≠ st.control_mode)
    (hs : (set_mode env st mode).1 = true) :
    (set_mode env st mode).2.2 =
      ((Event.initHook mode (!env.armed) true, st.control_mode) ::
        (exit_mode env st.control_mode mode).map
          (fun e => (e, st.control_mode))) ++
      ((Event.commit mode, mode) ::
        [(Event.logMode mode, mode), (Event.fenceRecovery, mode),
         (Event.notifyMode mode, mode)]) ∧
    (set_mode env st mode).2.1.control_mode = mode ∧
    (∀ p ∈ (set_mode env st mode).2.2,
      p.2 = st.control_mode ∨ p.2 = mode) ∧
    (∀ p ∈ (set_mode env st mode).2.2, isExitEv p.1 = true →
      (p.2 = st.control_mode ∧ p.1 ∈ exit_mode env st.control_mode mode)) := by
  have hb : (mode == st.control_mode) = false := by
    simp [hne]
  by_cases hr : recognized mode = true
  · by_cases hi : env.initOk mode (!env.armed) = true
    · have htr : (set_mode env st mode).2.2 =
          ((Event.initHook mode (!env.armed) true, st.control_mode) ::
            (exit_mode env st.control_mode mode).map
              (fun e => (e, st.control_mode))) ++
          ((Event.commit mode, mode) ::
            [(Event.logMode mode, mode), (Event.fenceRecovery, mode),
             (Event.notifyMode mode, mode)]) := by
        simp [set_mode, hb, hr, hi]
      refine ⟨htr, by simp [set_mode, hb, hr, hi], ?_, ?_⟩
      · intro p hp
        rw [htr] at hp
        simp only [List.mem_append, List.mem_cons, List.mem_map,
          List.not_mem_nil, or_false] at hp
        rcases hp with (rfl | ⟨e, he, rfl⟩) | rfl | rfl | rfl | rfl <;>
          simp
      · intro p hp hex
        rw [htr] at hp
        simp only [List.mem_append, List.mem_cons, List.mem_map,
          List.not_mem_nil, or_false] at hp
        rcases hp with (rfl | ⟨e, he, rfl⟩) | rfl | rfl | rfl | rfl
        · simp [isExitEv] at hex
        · exact ⟨rfl, he⟩
        · simp [isExitEv] at hex
        · simp [isExitEv] at hex
        · simp [isExitEv] at hex
        · simp [isExitEv] at hex
    · exfalso
      rw [Bool.not_eq_true] at hi
      simp [set_mode, hb, hr, hi] at hs
  · exfalso
    rw [Bool.not_eq_true] at hr
    simp [set_mode, hb, hr] at hs

/-- Claim C3, witness: the concrete transition STABILIZE to ALT_HOLD in an
environment whose init hooks succeed. -/
theorem set_mode_exit_before_commit_witness :
    (set_mode env0 st0 ALT_HOLD).2.2 =
      ((Event.initHook ALT_HOLD (!env0.armed) true, st0.control_mode) ::
        (exit_mode env0 st0.control_mode ALT_HOLD).map
          (fun e => (e, st0.control_mode))) ++
      ((Event.commit ALT_HOLD, ALT_HOLD) ::
        [(Event.logMode ALT_HOLD, ALT_HOLD),
         (Event.fenceRecovery, ALT_HOLD),
         (Event.notifyMode ALT_HOLD, ALT_HOLD)]) ∧
    (set_mode env0 st0 ALT_HOLD).2.1.control_mode = ALT_HOLD ∧
    (∀ p ∈ (set_mode env0 st0 ALT_HOLD).2.2,
      p.2 = st0.control_mode ∨ p.2 = ALT_HOLD) ∧
    (∀ p ∈ (set_mode env0 st0 ALT_HOLD).2.2, isExitEv p.1 = true →
      (p.2 = st0.control_mode ∧
        p.1 ∈ exit_mode env0 st0.control_mode ALT_HOLD)) :=
  set_mode_exit_before_commit env0 st0 ALT_HOLD (by decide) (by decide)

/-- Claim C4: for a target different from the current mode, set_mode fails
exactly when the target is unrecognized or its init hook rejects; on
failure the state is unchanged, exactly one error record is emitted, it
identifies the failed target while observing the unchanged mode, and the
only other event possible is the failed init hook itself: no exit cleanup,
commit, mode-change log, fence recovery or notification occurs. -/
theorem set_mode_failure (env : Env) (st : CopterState) (mode : Nat)
    (hne : mode ≠ st.control_mode) :
    ((set_mode env st mode).1 = false ↔
      (recognized mode = false ∨ env.initOk mode (!env.armed) = false)) ∧
    ((set_mode env st mode).1 = false →
      (set_mode env st mode).2.1 = st ∧
      List.countP (fun p => isErrorEv p.1) (set_mode env st mode).2.2 = 1 ∧
      (Event.logError mode, st.control_mode) ∈ (set_mode env st mode).2.2 ∧
      ∀ p ∈ (set_mode env st mode).2.2,
        p.1 = Event.logError mode ∨
          p.1 = Event.initHook mode (!env.armed) false) := by
  have hb : (mode == st.control_mode) = false := by
    simp [hne]
  by_cases hr : recognized mode = true
  · by_cases hi : env.initOk mode (!env.armed) = true
    · constructor
      · simp [set_mode, hb, hr, hi]
      · intro hf
        simp [set_mode, hb, hr, hi] at hf
    · rw [Bool.not_eq_true] at hi
      have htr : (set_mode env st mode).2.2 =
          [(Event.initHook mode (!env.armed) false, st.control_mode),
           (Event.logError mode, st.control_mode)] := by
        simp [set_mode, hb, hr, hi]
      constructor
      · simp [set_mode, hb, hr, hi]
      · intro _
        refine ⟨?_, ?_, ?_, ?_⟩
        · simp [set_mode, hb, hr, hi]
        · rw [htr]
          simp [List.countP_cons, isErrorEv]
        · rw [htr]
          simp
        · intro p hp
          rw [htr] at hp
          simp only [List.mem_cons, List.not_mem_nil, or_false] at hp
          rcases hp with rfl | rfl <;> simp
  · rw [Bool.not_eq_true] at hr
    have htr : (set_mode env st mode).2.2 =
        [(Event.logError mode, st.control_mode)] := by
      simp [set_mode, hb, hr]
    constructor
    · simp [set_mode, hb, hr]
    · intro _
      refine ⟨?_, ?_, ?_, ?_⟩
      · simp [set_mode, hb, hr]
      · rw [htr]
        simp [List.countP_cons, isErrorEv]
      · rw [htr]
        simp
      · intro p hp
        rw [htr] at hp
        simp only [List.mem_cons, List.not_mem_nil, or_false] at hp
        rcases hp with rfl
        simp

/-- Claim C4, witness: requesting ALT_HOLD from STABILIZE in an environment
whose init hooks all reject. -/
theorem set_mode_failure_witness :
    ((set_mode envF st0 ALT_HOLD).1 = false ↔
      (recognized ALT_HOLD = false ∨
        envF.initOk ALT_HOLD (!envF.armed) = false)) ∧
    ((set_mode envF st0 ALT_HOLD).1 = false →
      (set_mode envF st0 ALT_HOLD).2.1 = st0 ∧
      List.countP (fun p => isErrorEv p.1)
        (set_mode envF st0 ALT_HOLD).2.2 = 1 ∧
      (Event.logError ALT_HOLD, st0.control_mode) ∈
        (set_mode envF st0 ALT_HOLD).2.2 ∧
      ∀ p ∈ (set_mode envF st0 ALT_HOLD).2.2,
        p.1 = Event.logError ALT_HOLD ∨
          p.1 = Event.initHook ALT_HOLD (!envF.armed) false) :=
  set_mode_failure envF st0 ALT_HOLD (by decide)

/-- Helper: what the active branch of avoidance_maneuver writes, in terms
of the named per-line helpers. -/
theorem avoidance_active_fields (s : AvState) (j : ℝ)
    (h : |s.trafic_angle| < 70 ∧ 50 < s.trafic_distance ∧
      s.trafic_distance < 700) :
    (avoidance_maneuver s j).do_avoid_maneuver = true ∧
    (avoidance_maneuver s j).trafic_distance =
      (if s.trafic_distance < safety_bubble then safety_bubble
       else s.trafic_distance) ∧
    (avoidance_maneuver s j).avoidance_roll_angle_cd =
      flipIfNeg s.rel_d_y (clamp5 (Real.arctan (s.rel_v_x *
        response (if s.trafic_distance < safety_bubble then safety_bubble
          else s.trafic_distance) / 9.81))) * (-10000) ∧
    (avoidance_maneuver s j).avoidance_pitch_angle_cd =
      flipIfNeg s.rel_d_x (clamp5 (Real.arctan (j / 9.81))) * (-10000) := by
  refine ⟨?_, ?_, ?_, ?_⟩ <;> simp [avoidance_maneuver, h]

/-- Helper: the square root of the safety bubble is at least one. -/
theorem one_le_sqrt_500 : (1 : ℝ) ≤ Real.sqrt 500 := by
  have h := Real.sqrt_le_sqrt (show (1 : ℝ) ≤ 500 by norm_num)
  rw [Real.sqrt_one] at h
  exact h

/-- Helper: the response denominator at distance 600 is positive. -/
theorem den600_pos : (0 : ℝ) < 600 * Real.sqrt 500 - 1 := by
  have h := one_le_sqrt_500
  nlinarith

/-- Claim C9, counterexample: at the concrete clamped distance 600 the
response scalar of the code differs from the formula
gain / (distance * sqrt(bubble) - 1) stated by the claim. -/
theorem response_not_spec_formula :
    response 600 ≠ avoidance_gain / (600 * Real.sqrt safety_bubble - 1) := by
  have hden := den600_pos
  have hne : (600 * Real.sqrt 500 - 1) ≠ 0 := ne_of_gt hden
  unfold response avoidance_gain safety_bubble
  intro h
  rw [div_eq_div_iff hne hne] at h
  nlinarith [hden]

/-- Claim C9, amended: the avoidance branch clamps the distance to at
least the safety bubble first, then computes the response scalar as
10 * gain / (distance * sqrt(bubble) - 1) on the clamped distance - the
formula the claim states times an additional factor of 10 - and the roll
acceleration command is the lateral relative velocity component times that
scalar, fed through arctan, the clamp and the sign stages. -/
theorem avoidance_response_formula :
    (∀ d : ℝ, response d =
      10 * (avoidance_gain / (d * Real.sqrt safety_bubble - 1))) ∧
    (∀ (s : AvState) (j : ℝ),
      (|s.trafic_angle| < 70 ∧ 50 < s.trafic_distance ∧
        s.trafic_distance < 700) →
      (avoidance_maneuver s j).trafic_distance =
        (if s.trafic_distance < safety_bubble then safety_bubble
         else s.trafic_distance) ∧
      safety_bubble ≤ (avoidance_maneuver s j).trafic_distance ∧
      (avoidance_maneuver s j).avoidance_roll_angle_cd =
        flipIfNeg s.rel_d_y (clamp5 (Real.arctan (s.rel_v_x *
          response ((avoidance_maneuver s j).trafic_distance) / 9.81))) *
          (-10000)) := by
  constructor
  · intro d
    unfold response
    rw [mul_div_assoc]
  · intro s j h
    obtain ⟨_, hd, hroll, _⟩ := avoidance_active_fields s j h
    refine ⟨hd, ?_, ?_⟩
    · rw [hd]
      split_ifs with hc
      · exact le_refl _
      · exact le_of_not_lt hc
    · rw [hroll, hd]

/-- Claim C10: whatever raw angle of magnitude above 5 reaches the clamp
stage, the clamped value is the positive constant 5 regardless of the raw
sign, so after the displacement-driven sign flip and the -10000 conversion
the emitted correction is 50000 when the displacement component is
negative and -50000 otherwise, identical for any two such raw angles; the
same stages serve roll (displacement y) and pitch (displacement x). -/
theorem clamp_sign_from_displacement :
    ∀ (a b d : ℝ), 5 < |a| → 5 < |b| →
      clamp5 a = 5 ∧
      flipIfNeg d (clamp5 a) * (-10000) =
        (if d < 0 then 50000 else -50000) ∧
      flipIfNeg d (clamp5 a) * (-10000) =
        flipIfNeg d (clamp5 b) * (-10000) := by
  intro a b d ha hb
  have hca : clamp5 a = 5 := by
    unfold clamp5
    rw [if_pos ha]
  have hcb : clamp5 b = 5 := by
    unfold clamp5
    rw [if_pos hb]
  refine ⟨hca, ?_, by rw [hca, hcb]⟩
  rw [hca]
  unfold flipIfNeg
  split_ifs with h <;> norm_num

/-- Claim C10, witness: raw angles 7 and -7 with a negative displacement
component both emit exactly 50000. -/
theorem clamp_sign_from_displacement_witness :
    clamp5 7 = 5 ∧
    flipIfNeg (-1) (clamp5 7) * (-10000) =
      (if (-1 : ℝ) < 0 then 50000 else -50000) ∧
    flipIfNeg (-1) (clamp5 7) * (-10000) =
      flipIfNeg (-1) (clamp5 (-7)) * (-10000) :=
  clamp_sign_from_displacement 7 (-7) (-1) (by norm_num) (by norm_num)

/-- Claim C1: evaluation of the code at the failing input s1av.  The input
is in the active zone and produces the raw bank angle arctan 1 = pi/4,
whose magnitude exceeds 5 degrees; the emitted roll correction is
-2500*pi, whose magnitude is neither equal to nor below 500, the value of
5 degrees in integer hundredths of a degree.  The clamp compares the
arctan output against the literal 5 and the conversion multiplies by
-10000, so the emitted magnitude is 10000 times the raw angle instead of
being capped at 500. -/
theorem avoidance_clamp_units_bug :
    (|s1av.trafic_angle| < 70 ∧ 50 < s1av.trafic_distance ∧
      s1av.trafic_distance < 700) ∧
    5 * (Real.pi / 180) <
      |Real.arctan (s1av.rel_v_x * response 600 / 9.81)| ∧
    (avoidance_maneuver s1av 0).avoidance_roll_angle_cd =
      -(2500 * Real.pi) ∧
    |(avoidance_maneuver s1av 0).avoidance_roll_angle_cd| ≠ 500 ∧
    500 < |(avoidance_maneuver s1av 0).avoidance_roll_angle_cd| := by
  have hact : |s1av.trafic_angle| < 70 ∧ 50 < s1av.trafic_distance ∧
      s1av.trafic_distance < 700 := by
    norm_num [s1av]
  have hden := den600_pos
  have hne : (600 * Real.sqrt 500 - 1) ≠ 0 := ne_of_gt hden
  have hacc : s1av.rel_v_x * response 600 / 9.81 = 1 := by
    show 9.81 * (600 * Real.sqrt 500 - 1) / 5000 * response 600 / 9.81 = 1
    unfold response avoidance_gain safety_bubble
    field_simp
    ring
  have harc : Real.arctan (s1av.rel_v_x * response 600 / 9.81) =
      Real.pi / 4 := by
    rw [hacc, Real.arctan_one]
  have hpi1 : Real.pi < 3.15 := Real.pi_lt_d2
  have hpi3 : 3 < Real.pi := Real.pi_gt_three
  have hpos : (0 : ℝ) < Real.pi / 4 := by positivity
  have hclamp : clamp5 (Real.pi / 4) = Real.pi / 4 := by
    unfold clamp5
    rw [if_neg]
    rw [abs_of_pos hpos]
    nlinarith
  have hroll : (avoidance_maneuver s1av 0).avoidance_roll_angle_cd =
      -(2500 * Real.pi) := by
    obtain ⟨_, hd, hr, _⟩ := avoidance_active_fields s1av 0 hact
    rw [hr]
    have hdist : (if s1av.trafic_distance < safety_bubble then safety_bubble
        else s1av.trafic_distance) = 600 := by
      norm_num [s1av, safety_bubble]
    rw [hdist, harc, hclamp]
    show flipIfNeg 1 (Real.pi / 4) * (-10000) = -(2500 * Real.pi)
    unfold flipIfNeg
    rw [if_neg (by norm_num)]
    ring
  refine ⟨hact, ?_, hroll, ?_, ?_⟩
  · rw [harc, abs_of_pos hpos]
    nlinarith
  · rw [hroll, abs_neg, abs_of_pos (by positivity)]
    nlinarith
  · rw [hroll, abs_neg, abs_of_pos (by positivity)]
    nlinarith

end ArduRUAS
